import Mathlib

/-!
Verification of the crawl-orchestration and extraction logic of
`src/crawler.py` (a crawler for books.toscrape.com), via a shallow
embedding in Lean.

Pure string-processing functions (`clean_price`, the field extraction
inside `scrape_book`, URL collection in `get_book_urls`) are embedded
directly.  The worker loop (`worker_process`) and the aggregation loop in
`main` are embedded as recursive functions over an explicit trace of queue
events, with the shared-state mutation made explicit.  Library functions
used by the code (Python `float`/`int` parsing, `urllib.parse.urljoin`,
substring tests) are modelled on the subsets of inputs the code feeds
them (ASCII digits, dot-and-digit strings, simple relative hrefs).
-/

namespace Crawler

/-! ## Modelled Python library primitives -/

/-- Python's substring operator `needle in hay` on strings (case-sensitive). -/
def pyIn (needle hay : String) : Bool :=
  decide (needle.data <:+: hay.data)

/-- Value of a list of ASCII decimal digits, most significant first. -/
def digitsVal (ds : List Char) : Nat :=
  ds.foldl (fun acc c => 10 * acc + (c.toNat - ('0').toNat)) 0

/-- `some` of the value of a nonempty all-digit character list, else `none`. -/
def digits? (ds : List Char) : Option Nat :=
  if ds ≠ [] ∧ ds.all Char.isDigit then some (digitsVal ds) else none

/-- Splits a character list at every dot, like `str.split(".")`. -/
def splitDots : List Char → List (List Char)
  | [] => [[]]
  | '.' :: rest => [] :: splitDots rest
  | c :: rest =>
      match splitDots rest with
      | [] => [[c]]
      | g :: gs => (c :: g) :: gs

/-- Python `float` on a string made of ASCII digits and dots — exactly
what `clean_price` feeds it.  `none` models a raised `ValueError`: the
parse succeeds iff there is at most one dot and at least one digit
(`"1."` and `".5"` parse, `"."` and `"1.2.3"` raise).  The value is the
exact rational `digits / 10 ^ fractional-length`. -/
def pyFloat (cs : List Char) : Option ℚ :=
  match splitDots cs with
  | [ipart] =>
      if ipart ≠ [] ∧ ipart.all Char.isDigit then some ((digitsVal ipart : ℚ)) else none
  | [ipart, fpart] =>
      if (ipart ≠ [] ∨ fpart ≠ []) ∧ (ipart ++ fpart).all Char.isDigit then
        some ((digitsVal (ipart ++ fpart) : ℚ) / (10 : ℚ) ^ fpart.length)
      else none
  | _ => none

/-- Python `str.strip()`: leading and trailing whitespace removed. -/
def pyStrip (s : String) : String :=
  String.mk (((s.data.dropWhile Char.isWhitespace).reverse.dropWhile Char.isWhitespace).reverse)

/-- Python `str.lower()` on the ASCII labels the code meets. -/
def pyLower (s : String) : String :=
  String.mk (s.data.map Char.toLower)

/-- Python `int(s)` on an already-stripped string: an optional sign followed
by at least one ASCII digit (underscore grouping and non-ASCII digits are not
modelled; the code never relies on them).  `none` models a raised
`ValueError`. -/
def pyInt (s : String) : Option ℤ :=
  match s.data with
  | '-' :: ds => (digits? ds).map (fun n => -(n : ℤ))
  | '+' :: ds => (digits? ds).map (fun n => (n : ℤ))
  | ds => (digits? ds).map (fun n => (n : ℤ))

/-- `urllib.parse.urljoin(base, rel)` restricted to the cases the crawler
meets: an absolute `rel` (contains `"://"`) is returned unchanged, a
root-relative `rel` (leading `/`) is resolved against the scheme+host of
`base`, and otherwise `rel` replaces the last path segment of `base`
(dot-segments are not modelled; the site's hrefs contain none). -/
def schemeHostOf (base : String) : String :=
  match base.splitOn ("://") with
  | [sch, rest] => sch ++ "://" ++ ((rest.splitOn ("/")).headD "")
  | _ => base

def dropLastSegment (s : String) : String :=
  String.mk (((s.data.reverse).dropWhile (fun c => c ≠ '/')).reverse)

def urljoin (base rel : String) : String :=
  if pyIn ("://") rel then rel
  else if rel.data.head? = some '/' then schemeHostOf base ++ rel
  else dropLastSegment base ++ rel

/-! ## clean_price (src/crawler.py lines 13-29) -/

/-- `clean_price(price_text)`: keep only characters that are a digit or a
dot, then `float` the result if nonempty, else `0.0`.  The result is
`none` when `float` raises (the Python code has no handler for that, so
the exception propagates to the caller). -/
def clean_price (price_text : String) : Option ℚ :=
  let clean := price_text.data.filter (fun c => c.isDigit || c = '.')
  if clean.isEmpty then some 0 else pyFloat clean

/-! ## Field extraction inside scrape_book (src/crawler.py lines 52-118) -/

/-- A parsed item page as `scrape_book` reads it: each field is the text
the corresponding `soup.find` produces, or `none` when the element is
absent.  `tableRows` holds, per `<tr>`, the optional `th` text and
optional `td` text; `ratingHtml` is `str(rating_elem)`. -/
structure Doc where
  h1 : Option String
  priceText : Option String
  stockText : Option String
  ratingHtml : Option String
  tableRows : Option (List (Option String × Option String))
  breadcrumbItems : Option (List String)
deriving DecidableEq

/-- The rating word table, in the code's fixed insertion order. -/
def rating_map : List (String × Nat) :=
  [(("One"), 1), (("Two"), 2), (("Three"), 3), (("Four"), 4), (("Five"), 5)]

def firstRatingMatch (s : String) : List (String × Nat) → Nat
  | [] => 0
  | (w, n) :: rest => if pyIn w s then n else firstRatingMatch s rest

/-- Rating extraction (lines 66-79): 0 when the indicator is absent, else
the number of the first word of `rating_map` occurring in the indicator's
string representation, else 0. -/
def extractRating (ratingHtml : Option String) : Nat :=
  match ratingHtml with
  | none => 0
  | some s => firstRatingMatch s rating_map

/-- One pass of the product-information table scan (lines 85-97), carrying
the running `(upc, reviews)` state: a row with both cells whose label
contains `"UPC"` (case-sensitive substring) overwrites `upc` with the
stripped value; otherwise a label containing `"review"` (lowercased)
overwrites `reviews` with the parsed stripped value, 0 on `ValueError`. -/
def scanRows : String × ℤ → List (Option String × Option String) → String × ℤ
  | st, [] => st
  | (upc, reviews), (th?, td?) :: rest =>
      match th?, td? with
      | some th, some td =>
          if pyIn ("UPC") th then scanRows (pyStrip td, reviews) rest
          else if pyIn ("review") (pyLower th) then
            scanRows (upc, (pyInt (pyStrip td)).getD 0) rest
          else scanRows (upc, reviews) rest
      | _, _ => scanRows (upc, reviews) rest

/-- A successfully extracted record, fields in the code's order
(lines 108-118).  `reviews` is a Python `int`, hence `ℤ`. -/
structure Record where
  url : String
  title : String
  category : String
  rating : Nat
  upc : String
  price : ℚ
  currency : String
  in_stock : Bool
  reviews : ℤ
deriving DecidableEq

/-- The body of `scrape_book` after a successful 200 fetch (lines 52-118),
over the parsed document.  Every step is total except the `float` call
inside `clean_price`; when that raises, the surrounding
`except Exception: return None` (line 120) makes the whole extraction
return `none` — no partial record. -/
def extractBook (book_url : String) (d : Doc) : Option Record :=
  let title := match d.h1 with | some t => t | none => ("No title")
  let price? := match d.priceText with
    | some pt => clean_price pt
    | none => some 0
  match price? with
  | none => none
  | some price =>
      let in_stock := match d.stockText with
        | some s => pyIn ("In stock") s
        | none => false
      let rating := extractRating d.ratingHtml
      let (upc, reviews) := scanRows (("") , 0) (d.tableRows.getD [])
      let category := match d.breadcrumbItems with
        | some items =>
            if items.length ≥ 3 then pyStrip ((items.get? 2).getD (""))
            else ("Unknown")
        | none => ("Unknown")
      some { url := book_url, title := title, category := category,
             rating := rating, upc := upc, price := price,
             currency := ("GBP"), in_stock := in_stock, reviews := reviews }

/-! ## worker_process (src/crawler.py lines 124-155) -/

/-- What one `url_queue.get(timeout=2)` call yields to a worker: a real
URL, the `None` stop-sentinel, or a raised exception (`queue.Empty` on
timeout, or any other exception inside the `try`). -/
inductive PopResult where
  | url (u : String)
  | sentinel
  | exc
deriving DecidableEq

/-- The worker loop: pop; on the sentinel `break`; on any exception
`break`; on a URL, scrape it and put the result (`some record` or the
`None` failure marker) on the result queue, then loop.  `scrape` abstracts
`scrape_book`; the returned list is the sequence of values the worker puts
on the result queue before exiting. -/
def worker_process (scrape : String → Option Record) : List PopResult → List (Option Record)
  | [] => []
  | pop :: rest =>
      match pop with
      | .exc => []
      | .sentinel => []
      | .url u => scrape u :: worker_process scrape rest

/-- Modelled from the spec sentence of C2, for comparison with the code:
a pop that times out without an item is not fatal — the worker retries
until a real item or the stop-sentinel arrives. -/
def worker_process_retrying (scrape : String → Option Record) :
    List PopResult → List (Option Record)
  | [] => []
  | pop :: rest =>
      match pop with
      | .exc => worker_process_retrying scrape rest
      | .sentinel => []
      | .url u => scrape u :: worker_process_retrying scrape rest

/-! ## get_book_urls (src/crawler.py lines 158-206) -/

/-- What fetching and parsing one listing page yields: `fail` when
`requests.get` (or parsing) raises before any book is seen; `ok books`
when a list of product pods is found, each pod carrying `some href` or
`none` when its `<h3><a>` lookup would raise (`book.find('h3')` returning
`None` makes `.find('a')` raise `AttributeError`). -/
inductive ListingFetch where
  | fail
  | ok (books : List (Option String))
deriving DecidableEq

/-- The listing-page URL for page `p` (lines 177-180): the base URL for
page 1, else `base ++ "catalogue/page-p.html"`. -/
def pageUrlFor (base : String) (p : Nat) : String :=
  if p = 1 then base else base ++ ("catalogue/page-") ++ toString p ++ (".html")

/-- The per-page book loop (lines 195-201): resolve and append each href
until a malformed pod raises; the raise abandons the rest of the page but
keeps everything already appended. -/
def scanBooks (page_url : String) : List (Option String) → List String
  | [] => []
  | none :: _ => []
  | some href :: rest => urljoin page_url href :: scanBooks page_url rest

def get_book_urls_go (base : String) : Nat → List ListingFetch → List String
  | _, [] => []
  | p, f :: rest =>
      (match f with
       | .fail => []
       | .ok books => scanBooks (pageUrlFor base p) books) ++ get_book_urls_go base (p + 1) rest

/-- `get_book_urls(base_url, total_pages)` (lines 158-206) over the trace
of per-page fetch results, pages numbered from 1: each page's try block
contributes its scanned URLs; an exception is caught and the loop moves to
the next page. -/
def get_book_urls (base : String) (fetches : List ListingFetch) : List String :=
  get_book_urls_go base 1 fetches

/-! ## The aggregation loop in main (src/crawler.py lines 276-329) -/

/-- What one `result_queue.get(timeout=30)` call yields to the aggregator:
a worker outcome (`some record` on success, `none` on failure) or a raised
timeout. -/
inductive AggEvent where
  | res (r : Option Record)
  | timeout
deriving DecidableEq

/-- The aggregator's mutable state: `all_books`, `crawled_count`,
`failed_count` (lines 276-278). -/
structure AggState where
  all_books : List Record
  crawled_count : Nat
  failed_count : Nat
deriving DecidableEq

/-- Why the aggregation loop stopped: its condition
`crawled_count + failed_count < total` became false (`normal`), the
result-queue pop raised (`timeoutBreak`), or a checkpoint `save_books`
call raised — both reach the same `except Exception: break`
(`saveBreak`). -/
inductive ExitReason where
  | normal
  | timeoutBreak
  | saveBreak
deriving DecidableEq

/-- Outcome of a run of the aggregation loop: final state, number of
result-queue pops performed, why the loop stopped, and the checkpoint
invocations, each recorded as the list passed to `save_books` paired with
`crawled_count` at that moment (the last recorded invocation is the one
that raised, when `reason = saveBreak`). -/
structure AggResult where
  final : AggState
  consumed : Nat
  reason : ExitReason
  saves : List (List Record × Nat)
deriving DecidableEq

/-- Applies one received outcome to the state (lines 311-315): a success
is appended to `all_books` then counted; a failure only counts. -/
def applyOutcome (st : AggState) : Option Record → AggState
  | some rec =>
      { all_books := st.all_books ++ [rec],
        crawled_count := st.crawled_count + 1,
        failed_count := st.failed_count }
  | none => { st with failed_count := st.failed_count + 1 }

/-- The `while crawled_count + failed_count < total` loop (lines 306-329)
over the trace of result-queue events.  `saveFails k` tells whether the
`k`-th `save_books` call (0-based) raises; `attempt` counts calls so far.
An exhausted trace stands for a pop that waits out its 30 s timeout.  The
auto-save fires when the updated `crawled_count` is a positive multiple
of 20 (line 323); a raise from it is caught by the same
`except Exception` as the pop timeout and breaks the loop. -/
def aggLoop (total : Nat) (saveFails : Nat → Bool) :
    AggState → Nat → List AggEvent → AggResult
  | st, _, [] =>
      if st.crawled_count + st.failed_count < total then
        { final := st, consumed := 0, reason := .timeoutBreak, saves := [] }
      else
        { final := st, consumed := 0, reason := .normal, saves := [] }
  | st, attempt, ev :: rest =>
      if st.crawled_count + st.failed_count < total then
        match ev with
        | .timeout => { final := st, consumed := 1, reason := .timeoutBreak, saves := [] }
        | .res r =>
            let st' := applyOutcome st r
            if st'.crawled_count % 20 = 0 ∧ 0 < st'.crawled_count then
              if saveFails attempt then
                { final := st', consumed := 1, reason := .saveBreak,
                  saves := [(st'.all_books, st'.crawled_count)] }
              else
                let out := aggLoop total saveFails st' (attempt + 1) rest
                { final := out.final, consumed := out.consumed + 1, reason := out.reason,
                  saves := (st'.all_books, st'.crawled_count) :: out.saves }
            else
              let out := aggLoop total saveFails st' attempt rest
              { final := out.final, consumed := out.consumed + 1, reason := out.reason,
                saves := out.saves }
      else { final := st, consumed := 0, reason := .normal, saves := [] }

/-- The initial aggregation state (lines 276-278). -/
def aggInit : AggState := { all_books := [], crawled_count := 0, failed_count := 0 }

/-- The whole result-collection phase of `main` for `total` dispatched
URLs: run the loop from the zero state, then the unconditional final
`save_books` (line 337) records the accumulated list once more. -/
def collectResults (total : Nat) (saveFails : Nat → Bool) (evs : List AggEvent) : AggResult :=
  let out := aggLoop total saveFails aggInit 0 evs
  { out with saves := out.saves ++ [(out.final.all_books, out.final.crawled_count)] }

/-! ## Characterizations used to compare code with the spec's words -/

/-- A concrete record used to instantiate traces in closed statements. -/
def sampleRecord : Record :=
  { url := ("u"), title := ("t"), category := ("c"), rating := 3, upc := ("p"),
    price := 1, currency := ("GBP"), in_stock := true, reviews := 2 }

/-- The `upc` update a single table row causes, if any (the code's own
condition: both cells present and `"UPC"` a case-sensitive substring of
the label). -/
def upcRowMatch : Option String × Option String → Option String
  | (some th, some td) => if pyIn ("UPC") th then some (pyStrip td) else none
  | _ => none

/-- The value the last row of `l` matched by `f` carries, or `d` when no
row matches: a left fold in which every match overwrites the accumulator,
exactly as the Python loop overwrites its local variable. -/
def lastMatchD (f : ρ → Option α) (d : α) (l : List ρ) : α :=
  l.foldl (fun acc row => ((f row).getD acc)) d

/-- The `upc` the table scan ends with: the last matching row's stripped
value, or the empty string when no row matches. -/
def upcOfRows (rows : List (Option String × Option String)) : String :=
  lastMatchD upcRowMatch ("") rows

/-- Modelled from the claim's words for C6: the label is matched
case-insensitively against "UPC" as an exact label match. -/
def upcRowMatch_specC6 : Option String × Option String → Option String
  | (some th, some td) => if pyLower th = ("upc") then some (pyStrip td) else none
  | _ => none

def upcOfRows_specC6 (rows : List (Option String × Option String)) : String :=
  lastMatchD upcRowMatch_specC6 ("") rows

/-- The `reviews` update a single table row causes, if any: the code only
reaches the review branch when the UPC branch did not fire; an unparsable
cell contributes 0 (the caught `ValueError`). -/
def reviewRowMatch : Option String × Option String → Option ℤ
  | (some th, some td) =>
      if pyIn ("UPC") th then none
      else if pyIn ("review") (pyLower th) then some ((pyInt (pyStrip td)).getD 0)
      else none
  | _ => none

/-- The `reviews` the table scan ends with: the last matching row's parsed
value (0 on parse failure), or 0 when no row matches. -/
def reviewsOfRows (rows : List (Option String × Option String)) : ℤ :=
  lastMatchD reviewRowMatch 0 rows

/-! ## Helper lemmas -/

lemma scanRows_eq (rows : List (Option String × Option String)) :
    ∀ u r, scanRows (u, r) rows =
      (lastMatchD upcRowMatch u rows, lastMatchD reviewRowMatch r rows) := by
  induction rows with
  | nil => intro u r; simp [scanRows, lastMatchD]
  | cons row rest ih =>
      intro u r
      obtain ⟨th?, td?⟩ := row
      cases th? with
      | none => simp [scanRows, lastMatchD, upcRowMatch, reviewRowMatch, ih]
      | some th =>
          cases td? with
          | none => simp [scanRows, lastMatchD, upcRowMatch, reviewRowMatch, ih]
          | some td =>
              by_cases hupc : pyIn ("UPC") th = true
              · simp [scanRows, lastMatchD, hupc, upcRowMatch, reviewRowMatch, ih]
              · by_cases hrev : pyIn ("review") (pyLower th) = true
                · simp [scanRows, lastMatchD, hupc, hrev, upcRowMatch, reviewRowMatch, ih]
                · simp [scanRows, lastMatchD, hupc, hrev, upcRowMatch, reviewRowMatch, ih]

lemma aggLoop_normal_sum (total : Nat) (saveFails : Nat → Bool) :
    ∀ (evs : List AggEvent) (st : AggState) (attempt : Nat),
      st.crawled_count + st.failed_count ≤ total →
      (aggLoop total saveFails st attempt evs).reason = ExitReason.normal →
      (aggLoop total saveFails st attempt evs).final.crawled_count
          + (aggLoop total saveFails st attempt evs).final.failed_count = total ∧
      (aggLoop total saveFails st attempt evs).consumed
          = total - (st.crawled_count + st.failed_count) := by
  intro evs
  induction evs with
  | nil =>
      intro st attempt hle hnorm
      by_cases hlt : st.crawled_count + st.failed_count < total
      · simp [aggLoop, hlt] at hnorm
      · simp [aggLoop, hlt]
        omega
  | cons ev rest ih =>
      intro st attempt hle hnorm
      by_cases hlt : st.crawled_count + st.failed_count < total
      · cases ev with
        | timeout => simp [aggLoop, hlt] at hnorm
        | res r =>
            have hsum : (applyOutcome st r).crawled_count + (applyOutcome st r).failed_count
                = st.crawled_count + st.failed_count + 1 := by
              cases r <;> simp [applyOutcome] <;> omega
            have hle' : (applyOutcome st r).crawled_count
                + (applyOutcome st r).failed_count ≤ total := by omega
            by_cases hsave : (applyOutcome st r).crawled_count % 20 = 0
                ∧ 0 < (applyOutcome st r).crawled_count
            · by_cases hf : saveFails attempt = true
              · simp [aggLoop, hlt, hsave, hf] at hnorm
              · have hf' : saveFails attempt = false := by
                  simpa using hf
                have := ih (applyOutcome st r) (attempt + 1) hle'
                simp [aggLoop, hlt, hsave, hf'] at hnorm ⊢
                have h2 := this hnorm
                omega
            · have := ih (applyOutcome st r) attempt hle'
              simp [aggLoop, hlt, hsave] at hnorm ⊢
              have h2 := this hnorm
              omega
      · simp [aggLoop, hlt]
        omega

lemma aggLoop_books_len (total : Nat) (saveFails : Nat → Bool) :
    ∀ (evs : List AggEvent) (st : AggState) (attempt : Nat),
      st.all_books.length = st.crawled_count →
      (aggLoop total saveFails st attempt evs).final.all_books.length
          = (aggLoop total saveFails st attempt evs).final.crawled_count ∧
      ∀ p ∈ (aggLoop total saveFails st attempt evs).saves, p.1.length = p.2 := by
  intro evs
  induction evs with
  | nil =>
      intro st attempt hlen
      by_cases hlt : st.crawled_count + st.failed_count < total <;>
        simp [aggLoop, hlt, hlen]
  | cons ev rest ih =>
      intro st attempt hlen
      by_cases hlt : st.crawled_count + st.failed_count < total
      · cases ev with
        | timeout => simp [aggLoop, hlt, hlen]
        | res r =>
            have hlen' : (applyOutcome st r).all_books.length
                = (applyOutcome st r).crawled_count := by
              cases r <;> simp [applyOutcome, hlen]
            by_cases hsave : (applyOutcome st r).crawled_count % 20 = 0
                ∧ 0 < (applyOutcome st r).crawled_count
            · by_cases hf : saveFails attempt = true
              · simp [aggLoop, hlt, hsave, hf, hlen']
              · have hf' : saveFails attempt = false := by simpa using hf
                have h2 := ih (applyOutcome st r) (attempt + 1) hlen'
                simp [aggLoop, hlt, hsave, hf', hlen']
                exact ⟨h2.1, fun a b hab => h2.2 (a, b) hab⟩
            · have h2 := ih (applyOutcome st r) attempt hlen'
              simp [aggLoop, hlt, hsave]
              exact ⟨h2.1, fun a b hab => h2.2 (a, b) hab⟩
      · simp [aggLoop, hlt, hlen]

lemma scanBooks_map (page_url : String) (hrefs : List String) :
    scanBooks page_url (hrefs.map some) = hrefs.map (urljoin page_url) := by
  induction hrefs with
  | nil => simp [scanBooks]
  | cons h rest ih => simp [scanBooks, ih]

lemma scanBooks_stops_at_failure (page_url : String) :
    ∀ (pre : List String) (post : List (Option String)),
      scanBooks page_url (pre.map some ++ none :: post) = pre.map (urljoin page_url) := by
  intro pre
  induction pre with
  | nil => intro post; simp [scanBooks]
  | cons h rest ih => intro post; simp [scanBooks, ih]

/-! ## Claims -/

/-- C1: when the aggregation loop terminates normally (its condition
`crawled_count + failed_count < total` became false, not a break), the
succeeded plus failed counts equal the number of dispatched URLs, and the
loop performed exactly `total` result-queue pops — it stopped pulling
precisely when the equality first held, with no outcome dropped or
double-counted. -/
theorem C1_normal_completion_counts (total : Nat) (saveFails : Nat → Bool)
    (evs : List AggEvent)
    (hnorm : (aggLoop total saveFails aggInit 0 evs).reason = ExitReason.normal) :
    (aggLoop total saveFails aggInit 0 evs).final.crawled_count
        + (aggLoop total saveFails aggInit 0 evs).final.failed_count = total ∧
    (aggLoop total saveFails aggInit 0 evs).consumed = total := by
  have h := aggLoop_normal_sum total saveFails evs aggInit 0 (by simp [aggInit]) hnorm
  simpa [aggInit] using h

/-- C1 witness: a run with one success and one failure out of two
dispatched URLs terminates normally with `1 + 1 = 2` after exactly two
pops. -/
theorem C1_witness :
    (aggLoop 2 (fun _ => false) aggInit 0
        [AggEvent.res (some sampleRecord), AggEvent.res none]).final.crawled_count
      + (aggLoop 2 (fun _ => false) aggInit 0
        [AggEvent.res (some sampleRecord), AggEvent.res none]).final.failed_count = 2 ∧
    (aggLoop 2 (fun _ => false) aggInit 0
        [AggEvent.res (some sampleRecord), AggEvent.res none]).consumed = 2 :=
  C1_normal_completion_counts 2 (fun _ => false)
    [AggEvent.res (some sampleRecord), AggEvent.res none] (by decide)

/-- C2 counterexample: the claim says an ordinary empty-queue timeout
makes the worker retry the pop; in the code the `except Exception: break`
makes any pop timeout fatal.  On a trace where the first pop times out
while a real item is still coming, the code's worker exits with no output,
whereas the claimed retrying worker would process the item. -/
theorem C2_counterexample :
    worker_process (fun _ => none) [PopResult.exc, PopResult.url ("u")] = [] ∧
    worker_process_retrying (fun _ => none) [PopResult.exc, PopResult.url ("u")] = [none] ∧
    worker_process (fun _ => none) [PopResult.exc, PopResult.url ("u")]
      ≠ worker_process_retrying (fun _ => none) [PopResult.exc, PopResult.url ("u")] :=
  ⟨rfl, rfl, by decide⟩

/-- C2 amended: any exception raised during the pop — including the
ordinary empty-queue timeout — is worker-fatal: the worker exits at once
and never retries; it does not distinguish a transiently empty queue from
a permanently unreachable one.  A sentinel also exits; a real URL is
scraped and its outcome enqueued before looping. -/
theorem C2_amended_any_timeout_fatal (scrape : String → Option Record)
    (rest : List PopResult) (u : String) :
    worker_process scrape (PopResult.exc :: rest) = [] ∧
    worker_process scrape (PopResult.sentinel :: rest) = [] ∧
    worker_process scrape (PopResult.url u :: rest)
      = scrape u :: worker_process scrape rest :=
  ⟨rfl, rfl, rfl⟩

/-- A trace of 21 successful outcomes, enough to cross the checkpoint
threshold of 20 with one outcome still pending. -/
def c3trace : List AggEvent := List.replicate 21 (AggEvent.res (some sampleRecord))

/-- C3: with 21 dispatched URLs all succeeding, a raise from the
checkpoint `save_books` call at the 20th success is caught by the same
`except Exception` as the pop timeout and breaks the aggregation loop: the
21st outcome is never pulled (`consumed = 20 < 21`), so a write failure
does terminate result collection, contrary to the claim; with the save
succeeding, the very same trace completes normally. -/
theorem C3_checkpoint_failure_aborts :
    (aggLoop 21 (fun _ => true) aggInit 0 c3trace).reason = ExitReason.saveBreak ∧
    (aggLoop 21 (fun _ => true) aggInit 0 c3trace).consumed = 20 ∧
    (aggLoop 21 (fun _ => true) aggInit 0 c3trace).final.crawled_count
      + (aggLoop 21 (fun _ => true) aggInit 0 c3trace).final.failed_count = 20 ∧
    20 < 21 ∧
    (aggLoop 21 (fun _ => false) aggInit 0 c3trace).reason = ExitReason.normal ∧
    (aggLoop 21 (fun _ => false) aggInit 0 c3trace).consumed = 21 := by decide

/-- An item page whose price text strips to `"."`, every other field
well-formed. -/
def c4doc : Doc :=
  { h1 := some ("T"), priceText := some ("."), stockText := some ("In stock"),
    ratingHtml := some ("star-rating Three"),
    tableRows := some [(some ("UPC"), some ("x"))],
    breadcrumbItems := some [("Home"), ("Books"), ("Poetry")] }

/-- C4: the three documented cases hold (`"£51.77"` → 51.77, `""` → 0,
a digitless string like `"abc"` → 0), but a nonempty stripped string that
`float` rejects — `"."`, which also has no digits — raises `ValueError`
instead of yielding 0.0, contradicting `clean_price`'s own docstring
("0.0 if conversion fails"); inside `scrape_book` the raise is swallowed
by the page-level handler, so the whole record is dropped: an unparsable
price does abort extraction of the rest of the record. -/
theorem C4_unparsable_price_raises :
    clean_price ("£51.77") = some (5177 / 100) ∧
    clean_price ("") = some 0 ∧
    clean_price ("abc") = some 0 ∧
    clean_price (".") = none ∧
    extractBook ("u") c4doc = none := by
  refine ⟨?_, rfl, by decide, by decide, by decide⟩
  have h1 : clean_price ("£51.77")
      = some ((digitsVal ['5', '1', '7', '7'] : ℚ) / (10 : ℚ) ^ 2) := rfl
  have h2 : digitsVal ['5', '1', '7', '7'] = 5177 := by decide
  rw [h1, h2]
  norm_num

/-- A listing page with one good pod, then a malformed pod (its
`<h3><a>` lookup raises), then another good pod never reached. -/
def c5page : ListingFetch := ListingFetch.ok [some ("x.html"), none, some ("y.html")]

/-- C5 counterexample: a listing page whose parsing fails partway (the
second pod's link lookup raises) contributes one URL — the one appended
before the raise — not "exactly zero item URLs" as claimed. -/
theorem C5_counterexample :
    get_book_urls ("https://books.toscrape.com/") [c5page]
      = [("https://books.toscrape.com/x.html")] ∧
    get_book_urls ("https://books.toscrape.com/") [c5page] ≠ [] := by decide

/-- C5 amended: a listing page whose fetch fails contributes exactly zero
URLs; a page whose per-item link extraction raises partway contributes
exactly the URLs resolved before the failure point; in every case the
failure is non-fatal and collection continues with the next page. -/
theorem C5_amended_partial_page (base : String) (p : Nat) (rest : List ListingFetch) :
    get_book_urls_go base p (ListingFetch.fail :: rest)
      = get_book_urls_go base (p + 1) rest ∧
    (∀ books, get_book_urls_go base p (ListingFetch.ok books :: rest)
      = scanBooks (pageUrlFor base p) books ++ get_book_urls_go base (p + 1) rest) ∧
    (∀ (page_url : String) (pre : List String) (post : List (Option String)),
      scanBooks page_url (pre.map some ++ none :: post)
        = pre.map (urljoin page_url)) :=
  ⟨rfl, fun _ => rfl, fun page_url pre post => scanBooks_stops_at_failure page_url pre post⟩

/-- C6 counterexample: the claim says the label is matched
case-insensitively against "UPC" as an exact label match; the code tests
`'UPC' in th.get_text()`, which is case-sensitive and a substring test.
A lone row labelled `"upc"` yields `upc = ""` in the code where the
claimed matching yields `"X"`, and a row labelled `"UPC Code"` matches in
the code where the claimed exact matching yields `""`. -/
theorem C6_counterexample :
    (scanRows (("") , 0) [(some ("upc"), some ("X"))]).1 = ("") ∧
    upcOfRows_specC6 [(some ("upc"), some ("X"))] = ("X") ∧
    (("") : String) ≠ ("X") ∧
    (scanRows (("") , 0) [(some ("UPC Code"), some (" Y "))]).1 = ("Y") ∧
    upcOfRows_specC6 [(some ("UPC Code"), some (" Y "))] = ("") := by decide

/-- C6 amended: the label is matched case-sensitively against "UPC" as a
substring test; with no matching row `upc` is the empty string, and
otherwise `upc` is the stripped value cell of the last matching row. -/
theorem C6_amended_upc_substring :
    (∀ rows, (scanRows (("") , 0) rows).1 = upcOfRows rows) ∧
    upcOfRows [(some ("upc"), some ("X"))] = ("") ∧
    upcOfRows [(some ("UPC Code"), some (" Y "))] = ("Y") ∧
    upcOfRows [] = ("") := by
  refine ⟨fun rows => ?_, by decide, by decide, by decide⟩
  rw [scanRows_eq rows (("")) 0]
  rfl

/-- C7 counterexample: the claim says the extracted review count is always
non-negative; Python's `int` accepts a sign, so a review cell `"-5"`
yields `reviews = -5`. -/
theorem C7_counterexample :
    (scanRows (("") , 0) [(some ("Number of reviews"), some ("-5"))]).2 = -5 ∧
    (scanRows (("") , 0) [(some ("Number of reviews"), some ("-5"))]).2 < 0 := by decide

/-- C7 amended: the review cell is parsed as a (possibly signed) integer;
a cell that does not parse as an integer yields 0 without raising, but a
cell holding a negative integer yields that negative value, so the result
is an integer, not necessarily non-negative. -/
theorem C7_amended_signed_reviews :
    (∀ rows, (scanRows (("") , 0) rows).2 = reviewsOfRows rows) ∧
    reviewsOfRows [(some ("Number of reviews"), some ("abc"))] = 0 ∧
    reviewsOfRows [(some ("Number of reviews"), some ("5"))] = 5 ∧
    reviewsOfRows [(some ("Number of reviews"), some ("-5"))] = -5 := by
  refine ⟨fun rows => ?_, by decide, by decide, by decide⟩
  rw [scanRows_eq rows (("")) 0]
  rfl

/-- C8: rating extraction walks the five number-words in the fixed order
One..Five and the first word occurring in the indicator's string wins: an
absent indicator yields 0, an indicator matching none of the five words
yields 0, an indicator containing "Three" and no earlier word yields 3,
and in general a word of the table that occurs, none of whose predecessors
occurs, determines the rating. -/
theorem C8_rating_first_match :
    extractRating none = 0 ∧
    extractRating (some ("star-rating Three")) = 3 ∧
    (∀ s, (∀ wn ∈ rating_map, pyIn wn.1 s = false) → extractRating (some s) = 0) ∧
    (∀ s w n, (w, n) ∈ rating_map → pyIn w s = true →
      (∀ wn ∈ rating_map, wn.2 < n → pyIn wn.1 s = false) →
      extractRating (some s) = n) := by
  refine ⟨rfl, by decide, ?_, ?_⟩
  · intro s h
    have h1 := h (("One"), 1) (by simp [rating_map])
    have h2 := h (("Two"), 2) (by simp [rating_map])
    have h3 := h (("Three"), 3) (by simp [rating_map])
    have h4 := h (("Four"), 4) (by simp [rating_map])
    have h5 := h (("Five"), 5) (by simp [rating_map])
    simp [extractRating, rating_map, firstRatingMatch, h1, h2, h3, h4, h5]
  · intro s w n hmem hw hearlier
    have e1 := fun hn => hearlier (("One"), 1) (by simp [rating_map]) hn
    have e2 := fun hn => hearlier (("Two"), 2) (by simp [rating_map]) hn
    have e3 := fun hn => hearlier (("Three"), 3) (by simp [rating_map]) hn
    have e4 := fun hn => hearlier (("Four"), 4) (by simp [rating_map]) hn
    simp [rating_map] at hmem
    rcases hmem with ⟨hw', hn⟩ | ⟨hw', hn⟩ | ⟨hw', hn⟩ | ⟨hw', hn⟩ | ⟨hw', hn⟩ <;>
      subst hw' <;> subst hn <;>
      simp_all [extractRating, rating_map, firstRatingMatch]

/-- C8 witness: the general first-match conjunct applied to the indicator
"star-rating Four". -/
theorem C8_witness : extractRating (some ("star-rating Four")) = 4 :=
  C8_rating_first_match.2.2.2 ("star-rating Four") ("Four") 4
    (by simp [rating_map]) (by decide)
    (by intro wn hmem; fin_cases hmem <;> decide)

/-- C9: every discovered item link is resolved against the listing page's
own URL (`urljoin(page_url, link)`): the per-page scan maps
`urljoin page_url` over the hrefs, and concretely a relative href found on
page 3 resolves under `/catalogue/`, which differs from resolving against
the site root. -/
theorem C9_resolved_against_page_url :
    (∀ (page_url : String) (hrefs : List String), scanBooks page_url (hrefs.map some)
      = hrefs.map (urljoin page_url)) ∧
    get_book_urls ("https://books.toscrape.com/")
        [ListingFetch.ok [], ListingFetch.ok [],
         ListingFetch.ok [some ("b_5/index.html")]]
      = [("https://books.toscrape.com/catalogue/b_5/index.html")] ∧
    urljoin ("https://books.toscrape.com/catalogue/page-3.html") ("b_5/index.html")
      = ("https://books.toscrape.com/catalogue/b_5/index.html") ∧
    urljoin ("https://books.toscrape.com/") ("b_5/index.html")
      ≠ ("https://books.toscrape.com/catalogue/b_5/index.html") := by
  refine ⟨fun page_url hrefs => scanBooks_map page_url hrefs, by decide, by decide, by decide⟩

/-- C10: throughout the aggregation loop the accumulated record list is
exactly as long as the success count: the final state satisfies
`all_books.length = crawled_count`, and every `save_books` invocation —
each auto-checkpoint and the unconditional final save — is handed a list
whose length equals the success count at that moment. -/
theorem C10_books_length_eq_successes (total : Nat) (saveFails : Nat → Bool)
    (evs : List AggEvent) :
    (collectResults total saveFails evs).final.all_books.length
        = (collectResults total saveFails evs).final.crawled_count ∧
    ∀ p ∈ (collectResults total saveFails evs).saves, p.1.length = p.2 := by
  have h := aggLoop_books_len total saveFails evs aggInit 0 (by simp [aggInit])
  constructor
  · simpa [collectResults] using h.1
  · intro p hp
    simp only [collectResults, List.mem_append, List.mem_singleton] at hp
    rcases hp with hp | hp
    · exact h.2 p hp
    · subst hp
      simpa using h.1

/-- C10 witness: the invariant applied to a concrete one-success run,
including membership of the final save invocation. -/
theorem C10_witness :
    (collectResults 1 (fun _ => false) [AggEvent.res (some sampleRecord)]).final.all_books.length
      = (collectResults 1 (fun _ => false)
          [AggEvent.res (some sampleRecord)]).final.crawled_count ∧
    ([sampleRecord].length : Nat) = 1 :=
  ⟨(C10_books_length_eq_successes 1 (fun _ => false) [AggEvent.res (some sampleRecord)]).1,
   (C10_books_length_eq_successes 1 (fun _ => false) [AggEvent.res (some sampleRecord)]).2
     ([sampleRecord], 1) (by decide)⟩

end Crawler
